import Mathlib

/-!
Verification development for the peer data-retrieval client abstraction:
the `BodiesClient` contract with its default-method wiring, the
`SingleBodyRequest` batch-to-single adapter, and the blob-parameter
selection of `ChainSpec::blob_params_at_timestamp`.

Shallow embedding conventions:
* A future with a single suspension point is modelled by the number of
  polls it stays pending (`delay`) together with its eventual `output`.
* Machine integers (`u64`, hash values, peer ids) are modelled as `Nat`.
* Types defined in external crates and consumed opaquely (peer ids,
  request errors, blob parameters, hardfork-activation predicates) are
  modelled as parameters or abstract function fields.
-/

namespace Reth

/-- Opaque fixed-size content hash (`B256`) identifying one requested item. -/
abbrev B256 := Nat

/-- Opaque peer identity, used only as a tag attached to results. -/
abbrev PeerId := Nat

/-- Modelled from the spec: the transport-defined failure type describing why
a request could not be satisfied (timeout, no connected peer, malformed
response, peer disconnected); its definition lives outside the core and is
treated as an opaque tagged value, attributable to a peer when determinable. -/
inductive RequestError where
  | timeout (peer : PeerId)
  | noConnectedPeer
  | badResponse (peer : PeerId)
  | peerDisconnected (peer : PeerId)
deriving DecidableEq, Repr

/-- A payload together with the identity of the peer that supplied it
(`WithPeerId<T>`). -/
structure WithPeerId (T : Type) where
  peer : PeerId
  value : T
deriving DecidableEq, Repr

/-- Maps the carried value, keeping the peer id (`WithPeerId::map`). -/
def WithPeerId.map {T U : Type} (f : T → U) (w : WithPeerId T) : WithPeerId U :=
  ⟨w.peer, f w.value⟩

/-- The peer-attributed outcome of a request (`PeerRequestResult<T>`):
either a payload tagged with the serving peer, or a failure. -/
abbrev PeerRequestResult (T : Type) := Except RequestError (WithPeerId T)

/-- The outcome of one poll of a future (`Poll<T>`). -/
inductive Poll (α : Type) where
  | pending
  | ready (value : α)
deriving DecidableEq, Repr

/-- The priority of a request (`Priority`), a scheduling hint. -/
inductive Priority where
  | normal
  | high
deriving DecidableEq, Repr

/-- An optional inclusive numeric interval over block heights
(`RangeInclusive<u64>`), modelled as the pair `(earliest, latest)`. -/
abbrev RangeHint := Nat × Nat

/-- A batch-bodies future (`BodiesFut`), modelled by its single suspension
point: it is pending for `delay` polls and thereafter ready with `output`. -/
structure BodiesFut (B : Type) where
  delay : Nat
  output : PeerRequestResult (List B)

/-- Polling the batch future at poll number `n`. -/
def BodiesFut.poll {B : Type} (f : BodiesFut B) (n : Nat) :
    Poll (PeerRequestResult (List B)) :=
  if n < f.delay then .pending else .ready f.output

/-- A future that resolves to a single block body (`SingleBodyRequest`),
wrapping exactly one in-flight batch operation. -/
structure SingleBodyRequest (B : Type) where
  fut : BodiesFut B

/-- `SingleBodyRequest::poll`: polls the wrapped batch future; while it is
pending the adapter is pending (the `ready!` macro in the source), and when
it is ready the adapter maps the success payload through
`bodies.into_iter().next()` (the first element or none), keeping the peer id
and passing failures through unchanged. -/
def SingleBodyRequest.poll {B : Type} (s : SingleBodyRequest B) (n : Nat) :
    Poll (PeerRequestResult (Option B)) :=
  match s.fut.poll n with
  | .pending => .pending
  | .ready resp =>
      .ready (resp.map fun res => res.map fun bodies => bodies.head?)

/-- The `BodiesClient` contract: the primitive fetch operation is the only
required method; every other fetch operation is a provided default defined
below in terms of it. -/
structure BodiesClient (B : Type) where
  get_block_bodies_with_priority_and_range_hint :
    List B256 → Priority → Option RangeHint → BodiesFut B

/-- Default method `BodiesClient::get_block_bodies_with_priority`: delegates
to the primitive with no range hint. -/
def BodiesClient.get_block_bodies_with_priority {B : Type} (c : BodiesClient B)
    (hashes : List B256) (priority : Priority) : BodiesFut B :=
  c.get_block_bodies_with_priority_and_range_hint hashes priority none

/-- Default method `BodiesClient::get_block_bodies`: delegates with `Normal`
priority. -/
def BodiesClient.get_block_bodies {B : Type} (c : BodiesClient B)
    (hashes : List B256) : BodiesFut B :=
  c.get_block_bodies_with_priority hashes .normal

/-- Default method `BodiesClient::get_block_body_with_priority`: builds the
one-element batch `[hash]` at the given priority and wraps the resulting
future in the single-body adapter. -/
def BodiesClient.get_block_body_with_priority {B : Type} (c : BodiesClient B)
    (hash : B256) (priority : Priority) : SingleBodyRequest B :=
  SingleBodyRequest.mk (c.get_block_bodies_with_priority [hash] priority)

/-- Default method `BodiesClient::get_block_body`: the priority variant at
`Normal` priority. -/
def BodiesClient.get_block_body {B : Type} (c : BodiesClient B)
    (hash : B256) : SingleBodyRequest B :=
  c.get_block_body_with_priority hash .normal

/-- The blob-parameter schedule carried by a chain spec
(`BlobScheduleBlobParams`). The named per-fork parameters are fields; the
scheduled-entry lookup `active_scheduled_params_at_timestamp` is defined in
an external crate and is abstracted as a function field. `P` stands for the
externally defined `BlobParams` type, consumed opaquely. -/
structure BlobScheduleBlobParams (P : Type) where
  cancun : P
  prague : P
  osaka : P
  active_scheduled_params_at_timestamp : Nat → Option P

/-- The chain spec (`ChainSpec`), restricted to the data
`blob_params_at_timestamp` consults. The hardfork-activation predicates are
defined in an external crate and are abstracted as function fields. -/
structure ChainSpec (P : Type) where
  blob_params : BlobScheduleBlobParams P
  is_cancun_active_at_timestamp : Nat → Bool
  is_prague_active_at_timestamp : Nat → Bool
  is_osaka_active_at_timestamp : Nat → Bool

/-- `ChainSpec::blob_params_at_timestamp`: explicitly scheduled parameters
first, otherwise the Osaka, Prague, then Cancun parameters guarded by their
activation predicates, otherwise none. -/
def ChainSpec.blob_params_at_timestamp {P : Type} (c : ChainSpec P)
    (timestamp : Nat) : Option P :=
  match c.blob_params.active_scheduled_params_at_timestamp timestamp with
  | some blob_param => some blob_param
  | none =>
      if c.is_osaka_active_at_timestamp timestamp then
        some c.blob_params.osaka
      else if c.is_prague_active_at_timestamp timestamp then
        some c.blob_params.prague
      else if c.is_cancun_active_at_timestamp timestamp then
        some c.blob_params.cancun
      else
        none

end Reth

namespace Reth

/-- C1: if the wrapped batch operation completes successfully with a
non-empty sequence of bodies, the adapter resolves to success containing
exactly the first element; all subsequent elements are discarded, never
surfaced as an error. -/
theorem single_body_first_of_nonempty {B : Type} (delay n : Nat)
    (peer : PeerId) (b : B) (rest : List B) (h : delay ≤ n) :
    (SingleBodyRequest.mk ⟨delay, .ok ⟨peer, b :: rest⟩⟩).poll n =
      .ready (.ok ⟨peer, some b⟩) := by
  simp [SingleBodyRequest.poll, BodiesFut.poll, Nat.not_lt.mpr h,
    Except.map, WithPeerId.map]

/-- Witness for C1 at a concrete three-element batch. -/
theorem single_body_first_of_nonempty_witness :
    (0 : Nat) ≤ 2 ∧
      (SingleBodyRequest.mk ⟨0, .ok ⟨7, [10, 20, 30]⟩⟩ :
          SingleBodyRequest Nat).poll 2 =
        .ready (.ok ⟨7, some 10⟩) :=
  ⟨by decide, single_body_first_of_nonempty 0 2 7 10 [20, 30] (by decide)⟩

/-- C2: if the wrapped batch operation completes successfully with an empty
sequence, the adapter resolves to success containing no item, never to a
failure. -/
theorem single_body_empty_is_none {B : Type} (delay n : Nat)
    (peer : PeerId) (h : delay ≤ n) :
    (SingleBodyRequest.mk ⟨delay, .ok ⟨peer, ([] : List B)⟩⟩).poll n =
      .ready (.ok ⟨peer, none⟩) := by
  simp [SingleBodyRequest.poll, BodiesFut.poll, Nat.not_lt.mpr h,
    Except.map, WithPeerId.map]

/-- Witness for C2 at a concrete empty batch. -/
theorem single_body_empty_is_none_witness :
    (1 : Nat) ≤ 3 ∧
      (SingleBodyRequest.mk ⟨1, .ok ⟨4, ([] : List Nat)⟩⟩).poll 3 =
        .ready (.ok ⟨4, none⟩) :=
  ⟨by decide, single_body_empty_is_none 1 3 4 (by decide)⟩

/-- C3: if the wrapped batch operation completes with a failure, the adapter
resolves to that identical failure value, unchanged; it never converts a
failure into a successful empty result. -/
theorem single_body_failure_transparent {B : Type} (delay n : Nat)
    (e : RequestError) (h : delay ≤ n) :
    (SingleBodyRequest.mk (⟨delay, .error e⟩ : BodiesFut B)).poll n =
      .ready (.error e) := by
  simp [SingleBodyRequest.poll, BodiesFut.poll, Nat.not_lt.mpr h, Except.map]

/-- Witness for C3 at a concrete peer-timeout failure attributed to peer 9. -/
theorem single_body_failure_transparent_witness :
    (2 : Nat) ≤ 2 ∧
      (SingleBodyRequest.mk
          (⟨2, .error (.timeout 9)⟩ : BodiesFut Nat)).poll 2 =
        .ready (.error (.timeout 9)) :=
  ⟨by decide, single_body_failure_transparent 2 2 (.timeout 9) (by decide)⟩

/-- C4: the convenience single-item operations are implemented exclusively by
constructing the one-element batch `[hash]` at the given priority (`Normal`
when omitted), passing it to the batch fetch, and wrapping the result in the
single-item adapter; no separate code path is introduced. -/
theorem get_block_body_via_batch {B : Type} (c : BodiesClient B)
    (hash : B256) (priority : Priority) :
    c.get_block_body_with_priority hash priority =
        SingleBodyRequest.mk (c.get_block_bodies_with_priority [hash] priority) ∧
      c.get_block_body hash = c.get_block_body_with_priority hash .normal :=
  ⟨rfl, rfl⟩

/-- C5: the default implementation of `get_block_bodies hashes` is the same
future as `get_block_bodies_with_priority_and_range_hint hashes Normal None`. -/
theorem get_block_bodies_default {B : Type} (c : BodiesClient B)
    (hashes : List B256) :
    c.get_block_bodies hashes =
      c.get_block_bodies_with_priority_and_range_hint hashes .normal none :=
  rfl

/-- C6: the default implementation of
`get_block_bodies_with_priority hashes priority` is the same future as
`get_block_bodies_with_priority_and_range_hint hashes priority None`. -/
theorem get_block_bodies_with_priority_default {B : Type} (c : BodiesClient B)
    (hashes : List B256) (priority : Priority) :
    c.get_block_bodies_with_priority hashes priority =
      c.get_block_bodies_with_priority_and_range_hint hashes priority none :=
  rfl

/-- C7: the adapter introduces no suspension point of its own: a poll of the
adapter is pending exactly when the same poll of the wrapped operation is
pending, and in the poll in which the wrapped operation becomes ready the
adapter becomes ready with the pure first-element-or-none transformation of
the wrapped result. -/
theorem single_body_no_extra_suspension {B : Type} (s : SingleBodyRequest B)
    (n : Nat) :
    (s.poll n = .pending ↔ s.fut.poll n = .pending) ∧
      ∀ resp, s.fut.poll n = .ready resp →
        s.poll n =
          .ready (resp.map fun res => res.map fun bodies => bodies.head?) := by
  refine ⟨⟨fun h => ?_, fun h => by simp [SingleBodyRequest.poll, h]⟩,
    fun resp h => by simp [SingleBodyRequest.poll, h]⟩
  cases hf : s.fut.poll n with
  | pending => rfl
  | ready resp => simp [SingleBodyRequest.poll, hf] at h

/-- Witness for C7 at a concrete future that is pending at poll 0 and ready
at poll 1. -/
theorem single_body_no_extra_suspension_witness :
    ((SingleBodyRequest.mk (⟨1, .ok ⟨5, [9]⟩⟩ : BodiesFut Nat)).poll 0 =
          .pending ↔
        (⟨1, .ok ⟨5, [9]⟩⟩ : BodiesFut Nat).poll 0 = .pending) ∧
      (SingleBodyRequest.mk (⟨1, .ok ⟨5, [9]⟩⟩ : BodiesFut Nat)).poll 1 =
        .ready ((Except.ok ⟨5, [9]⟩ : PeerRequestResult (List Nat)).map
          fun res => res.map fun bodies => bodies.head?) :=
  ⟨(single_body_no_extra_suspension
      (SingleBodyRequest.mk (⟨1, .ok ⟨5, [9]⟩⟩ : BodiesFut Nat)) 0).1,
    (single_body_no_extra_suspension
      (SingleBodyRequest.mk (⟨1, .ok ⟨5, [9]⟩⟩ : BodiesFut Nat)) 1).2
      (.ok ⟨5, [9]⟩) rfl⟩

/-- C8: the default fetch methods and the adapter are total on every input —
any identifier sequence, including the empty sequence and sequences with
duplicates, and any wrapped-operation outcome — and each poll of the adapter
yields only the documented forms: pending, a peer-attributed success, or a
failure through the result type. -/
theorem core_never_panics {B : Type} (c : BodiesClient B)
    (hashes : List B256) (priority : Priority) (n : Nat) :
    ((c.get_block_bodies hashes).poll n = .pending ∨
        ∃ r, (c.get_block_bodies hashes).poll n = .ready r) ∧
      ((c.get_block_bodies_with_priority hashes priority).poll n = .pending ∨
        ∃ r, (c.get_block_bodies_with_priority hashes priority).poll n =
          .ready r) ∧
      ∀ s : SingleBodyRequest B,
        s.poll n = .pending ∨
          (∃ peer body, s.poll n = .ready (.ok ⟨peer, body⟩)) ∨
          (∃ e, s.poll n = .ready (.error e)) := by
  refine ⟨?_, ?_, fun s => ?_⟩
  · cases h : (c.get_block_bodies hashes).poll n with
    | pending => exact Or.inl rfl
    | ready r => exact Or.inr ⟨r, rfl⟩
  · cases h : (c.get_block_bodies_with_priority hashes priority).poll n with
    | pending => exact Or.inl rfl
    | ready r => exact Or.inr ⟨r, rfl⟩
  · unfold SingleBodyRequest.poll
    cases s.fut.poll n with
    | pending => exact Or.inl rfl
    | ready resp =>
        cases resp with
        | error e => exact Or.inr (Or.inr ⟨e, rfl⟩)
        | ok w => exact Or.inr (Or.inl ⟨w.peer, w.value.head?, rfl⟩)

/-- C9: when the wrapped batch operation completes successfully, the adapter
keeps the attached peer identity unchanged and transforms only the payload. -/
theorem single_body_preserves_peer {B : Type} (delay n : Nat)
    (peer : PeerId) (bodies : List B) (h : delay ≤ n) :
    (SingleBodyRequest.mk ⟨delay, .ok ⟨peer, bodies⟩⟩).poll n =
      .ready (.ok ⟨peer, bodies.head?⟩) := by
  simp [SingleBodyRequest.poll, BodiesFut.poll, Nat.not_lt.mpr h,
    Except.map, WithPeerId.map]

/-- Witness for C9 at a concrete successful batch from peer 11. -/
theorem single_body_preserves_peer_witness :
    (0 : Nat) ≤ 0 ∧
      (SingleBodyRequest.mk ⟨0, .ok ⟨11, [3, 4]⟩⟩ :
          SingleBodyRequest Nat).poll 0 =
        .ready (.ok ⟨11, some 3⟩) :=
  ⟨by decide, single_body_preserves_peer 0 0 11 [3, 4] (by decide)⟩

/-- C10: `blob_params_at_timestamp` selects blob parameters by a fixed
precedence: the explicitly scheduled parameters active at the timestamp if
any, otherwise the Osaka parameters if Osaka is active, otherwise the Prague
parameters if Prague is active, otherwise the Cancun parameters if Cancun is
active, and none only when none of these apply. -/
theorem blob_params_precedence {P : Type} (c : ChainSpec P) (t : Nat) :
    (∀ p, c.blob_params.active_scheduled_params_at_timestamp t = some p →
        c.blob_params_at_timestamp t = some p) ∧
      (c.blob_params.active_scheduled_params_at_timestamp t = none →
        c.is_osaka_active_at_timestamp t = true →
          c.blob_params_at_timestamp t = some c.blob_params.osaka) ∧
      (c.blob_params.active_scheduled_params_at_timestamp t = none →
        c.is_osaka_active_at_timestamp t = false →
          c.is_prague_active_at_timestamp t = true →
            c.blob_params_at_timestamp t = some c.blob_params.prague) ∧
      (c.blob_params.active_scheduled_params_at_timestamp t = none →
        c.is_osaka_active_at_timestamp t = false →
          c.is_prague_active_at_timestamp t = false →
            c.is_cancun_active_at_timestamp t = true →
              c.blob_params_at_timestamp t = some c.blob_params.cancun) ∧
      (c.blob_params.active_scheduled_params_at_timestamp t = none →
        c.is_osaka_active_at_timestamp t = false →
          c.is_prague_active_at_timestamp t = false →
            c.is_cancun_active_at_timestamp t = false →
              c.blob_params_at_timestamp t = none) := by
  refine ⟨fun p hp => ?_, fun hs ho => ?_, fun hs ho hp => ?_,
    fun hs ho hp hc => ?_, fun hs ho hp hc => ?_⟩ <;>
    simp_all [ChainSpec.blob_params_at_timestamp]

/-- Witness for C10: five concrete chain specs, one per branch of the
precedence chain, each with its hypotheses discharged by evaluation. -/
theorem blob_params_precedence_witness :
    (ChainSpec.blob_params_at_timestamp
        ⟨⟨1, 2, 3, fun _ => some 9⟩, fun _ => true, fun _ => true,
          fun _ => true⟩ 0 = some 9) ∧
      (ChainSpec.blob_params_at_timestamp
        ⟨⟨1, 2, 3, fun _ => none⟩, fun _ => true, fun _ => true,
          fun _ => true⟩ 0 = some 3) ∧
      (ChainSpec.blob_params_at_timestamp
        ⟨⟨1, 2, 3, fun _ => none⟩, fun _ => true, fun _ => true,
          fun _ => false⟩ 0 = some 2) ∧
      (ChainSpec.blob_params_at_timestamp
        ⟨⟨1, 2, 3, fun _ => none⟩, fun _ => true, fun _ => false,
          fun _ => false⟩ 0 = some 1) ∧
      (ChainSpec.blob_params_at_timestamp
        ⟨⟨1, 2, 3, fun _ => none⟩, fun _ => false, fun _ => false,
          fun _ => false⟩ 0 = (none : Option Nat)) :=
  ⟨(blob_params_precedence
      ⟨⟨1, 2, 3, fun _ => some 9⟩, fun _ => true, fun _ => true,
        fun _ => true⟩ 0).1 9 rfl,
    (blob_params_precedence
      ⟨⟨1, 2, 3, fun _ => none⟩, fun _ => true, fun _ => true,
        fun _ => true⟩ 0).2.1 rfl rfl,
    (blob_params_precedence
      ⟨⟨1, 2, 3, fun _ => none⟩, fun _ => true, fun _ => true,
        fun _ => false⟩ 0).2.2.1 rfl rfl rfl,
    (blob_params_precedence
      ⟨⟨1, 2, 3, fun _ => none⟩, fun _ => true, fun _ => false,
        fun _ => false⟩ 0).2.2.2.1 rfl rfl rfl rfl,
    (blob_params_precedence
      ⟨⟨1, 2, 3, fun _ => none⟩, fun _ => false, fun _ => false,
        fun _ => false⟩ 0).2.2.2.2 rfl rfl rfl rfl⟩

end Reth
